import Mathlib

set_option maxHeartbeats 1000000

/-!
Verification of the ppp CLI front end (src/pmix/ppp/interfaces/cli.py) and of the
preset/toggle resolution policy it drives.  The CLI source is embedded directly.
The resolver itself and the constant SUPPORTED_FORMATS live in the pmix.ppp
package, which is not part of the visible sources, so those definitions are
modelled from the specification and marked as such.
-/

/-- Preset names selectable via the CLI flag -p (--preset)
(src/pmix/ppp/interfaces/cli.py, lines 38-40: choices are public, internal,
developer, minimal). -/
inductive Preset
  | public
  | internal
  | developer
  | minimal
deriving DecidableEq

/-- Modelled from the spec: the provenance recorded for an effective
configuration is either the chosen preset name or custom when an override
changed a value; the resolver code is in the pmix.ppp package, which is not
among the visible sources. -/
inductive Provenance
  | fromPreset (p : Preset)
  | custom
deriving DecidableEq

/-- The six boolean toggle options of the spec data model. -/
@[ext]
structure ToggleMap where
  input_replacement : Bool
  exclusion : Bool
  hr_relevant : Bool
  hr_constraint : Bool
  no_constraint : Bool
  text_replacements : Bool
deriving DecidableEq

/-- Modelled from the spec: the preset default table of section 4.1; the code
holding this table is in the pmix.ppp package, not among the visible sources. -/
def presetDefaults : Preset → ToggleMap
  | Preset.public => ⟨true, true, true, false, false, true⟩
  | Preset.internal => ⟨false, false, true, false, false, true⟩
  | Preset.developer => ⟨false, false, false, false, false, false⟩
  | Preset.minimal => ⟨false, false, false, false, false, false⟩

/-- A partial map of toggle overrides: none means the caller did not supply the
toggle, some b means the caller supplied it with value b. -/
structure Overrides where
  input_replacement : Option Bool
  exclusion : Option Bool
  hr_relevant : Option Bool
  hr_constraint : Option Bool
  no_constraint : Option Bool
  text_replacements : Option Bool
deriving DecidableEq

/-- The empty override map: no toggle supplied. -/
def emptyOverrides : Overrides :=
  ⟨none, none, none, none, none, none⟩

/-- Replace a default by an override when one is present (spec algorithm
step 2). -/
def applyOne (d : Bool) (o : Option Bool) : Bool :=
  o.getD d

/-- Apply every present override to the default row (spec algorithm step 2). -/
def applyOverrides (d : ToggleMap) (o : Overrides) : ToggleMap :=
  ⟨applyOne d.input_replacement o.input_replacement,
   applyOne d.exclusion o.exclusion,
   applyOne d.hr_relevant o.hr_relevant,
   applyOne d.hr_constraint o.hr_constraint,
   applyOne d.no_constraint o.no_constraint,
   applyOne d.text_replacements o.text_replacements⟩

/-- Modelled from the spec: steps 1-3 of the resolve algorithm in section 4.1.
Look up the default row, apply the overrides, and mark provenance custom
exactly when that changed at least one value.  The resolver code is in the
pmix.ppp package, not among the visible sources. -/
def resolveToggles (p : Preset) (o : Overrides) : ToggleMap × Provenance :=
  if applyOverrides (presetDefaults p) o = presetDefaults p then
    (applyOverrides (presetDefaults p) o, Provenance.fromPreset p)
  else
    (applyOverrides (presetDefaults p) o, Provenance.custom)

/-- Modelled from the spec: the formats that support visual layout, used by
the highlight validation of resolve step 4 (currently html; pdf reserved). -/
def visualFormats : List String :=
  ["html", "pdf"]

/-- Modelled from the spec: the single configuration error kind of the
resolver, raised when highlight is requested with a format that does not
support visual layout. -/
inductive ConfigurationError
  | highlightUnsupported
deriving DecidableEq

/-- The resolved configuration handed to the Renderer (spec data model). -/
structure EffectiveConfig where
  toggles : ToggleMap
  provenance : Provenance
  language : Option String
  output_format : String
  debug : Bool
  highlight : Bool
  outpath : Option String
deriving DecidableEq

/-- Modelled from the spec: the full resolve contract of section 4.1
(steps 1-5): compute the toggles and provenance, validate highlight against
the format, and return the immutable effective configuration.  The resolver
code is in the pmix.ppp package, not among the visible sources. -/
def resolve (p : Preset) (o : Overrides) (language : Option String)
    (output_format : String) (debug : Bool) (highlight : Bool)
    (outpath : Option String) : Except ConfigurationError EffectiveConfig :=
  if highlight = true ∧ output_format ∉ visualFormats then
    Except.error ConfigurationError.highlightUnsupported
  else
    Except.ok ⟨(resolveToggles p o).1, (resolveToggles p o).2, language,
      output_format, debug, highlight, outpath⟩

/-- An individual override that is present and differs from the default. -/
def overrideDiffers (d : Bool) (o : Option Bool) : Prop :=
  ∃ b, o = some b ∧ b ≠ d

/-- At least one of the six overrides is present and differs from the
default row. -/
def someOverrideDiffers (d : ToggleMap) (o : Overrides) : Prop :=
  overrideDiffers d.input_replacement o.input_replacement ∨
  overrideDiffers d.exclusion o.exclusion ∨
  overrideDiffers d.hr_relevant o.hr_relevant ∨
  overrideDiffers d.hr_constraint o.hr_constraint ∨
  overrideDiffers d.no_constraint o.no_constraint ∨
  overrideDiffers d.text_replacements o.text_replacements

/-- Modelled from the spec: SUPPORTED_FORMATS comes from
pmix.ppp.definitions.constants, which is not among the visible sources; the
spec table and the CLI format help both say text and html are currently
supported, with html the default. -/
def SUPPORTED_FORMATS : List String :=
  ["html", "text"]

/-- The argparse namespace produced by a successful parse in cli
(src/pmix/ppp/interfaces/cli.py): positional xlsxfile, preset with the four
choices, optional language, format, the six store-true toggles, debug,
highlight, optional outpath. -/
structure Args where
  xlsxfile : String
  preset : Preset
  language : Option String
  format : String
  input_replacement : Bool
  exclusion : Bool
  hr_relevant : Bool
  hr_constraint : Bool
  no_constraint : Bool
  text_replacements : Bool
  debug : Bool
  highlight : Bool
  outpath : Option String
deriving DecidableEq

/-- Python exceptions as far as the cli function distinguishes them:
OdkException (and its subclasses such as OdkFormError) versus anything
else. -/
inductive PyExc
  | odk (msg : String)
  | other (msg : String)
deriving DecidableEq

/-- The exact keyword arguments cli passes to run
(src/pmix/ppp/interfaces/cli.py, lines 221-223). -/
structure RunArgs where
  in_file : String
  language : Option String
  output_format : String
  out_file : Option String
  debug : Bool
  highlight : Bool
  preset : Preset
deriving DecidableEq

/-- The run call cli builds from the parsed arguments
(src/pmix/ppp/interfaces/cli.py, lines 221-223). -/
def runArgsOf (a : Args) : RunArgs :=
  ⟨a.xlsxfile, a.language, a.format, a.outpath, a.debug, a.highlight, a.preset⟩

/-- How an invocation of cli ends: normal return with nothing printed to
stderr, normal return after printing a message to stderr (exit code 0 either
way), or an exception propagating out of cli. -/
inductive CliOutcome
  | ok
  | printedErr (msg : String)
  | raised (e : PyExc)
deriving DecidableEq

/-- Outcome of cli together with the run invocation it made, when it made
one. -/
structure CliResult where
  outcome : CliOutcome
  runCall : Option RunArgs
deriving DecidableEq

/-- The message of the OdkFormError raised by the highlight check
(src/pmix/ppp/interfaces/cli.py, lines 216-217). -/
def highlightErrorMsg : String :=
  "Can only specify highlighting when using the following formats: \x27html\x27, \x27pdf\x27."

/-- The fixed error template of the except clause
(src/pmix/ppp/interfaces/cli.py, lines 225-226). -/
def errTemplate (file msg : String) : String :=
  "An error occurred while attempting to convert \x27" ++ file ++ "\x27:\n" ++ msg

/-- The body of cli after argument parsing (src/pmix/ppp/interfaces/cli.py,
lines 215-227), with the external run function passed in as a parameter: first
the highlight check (raising OdkFormError outside the try block), then the
run call inside try, catching exactly OdkException, formatting it with
errTemplate and printing to stderr without re-raising. -/
def cli (runB : RunArgs → Except PyExc Unit) (a : Args) : CliResult :=
  if a.highlight = true ∧ a.format ≠ "" ∧ a.format ∉ SUPPORTED_FORMATS then
    ⟨CliOutcome.raised (PyExc.odk highlightErrorMsg), none⟩
  else
    match runB (runArgsOf a) with
    | Except.ok _ => ⟨CliOutcome.ok, some (runArgsOf a)⟩
    | Except.error (PyExc.odk m) =>
        ⟨CliOutcome.printedErr (errTemplate a.xlsxfile m), some (runArgsOf a)⟩
    | Except.error (PyExc.other m) =>
        ⟨CliOutcome.raised (PyExc.other m), some (runArgsOf a)⟩

/-- The choices of the -p (--preset) flag (src/pmix/ppp/interfaces/cli.py,
lines 38-40). -/
def presetChoices : List String :=
  ["public", "internal", "developer", "minimal"]

/-- The default of the -p (--preset) flag (src/pmix/ppp/interfaces/cli.py,
line 40). -/
def presetDefaultName : String :=
  "developer"

/-- Argparse behaviour of the -p (--preset) flag: absent means the default,
a supplied value parses only when it is among the choices. -/
def parsePreset : Option String → Option String
  | none => some presetDefaultName
  | some s => if s ∈ presetChoices then some s else none

/-- A run behaviour that succeeds on every input. -/
def runOk : RunArgs → Except PyExc Unit :=
  fun _ => Except.ok ()

/-- A run behaviour raising an exception that is not an OdkException. -/
def runRaisesOther : RunArgs → Except PyExc Unit :=
  fun _ => Except.error (PyExc.other "boom")

/-- A run behaviour raising an OdkException with message bad form. -/
def runRaisesOdk : RunArgs → Except PyExc Unit :=
  fun _ => Except.error (PyExc.odk "bad form")

/-- Parsed arguments for: form.xlsx -f text -H (highlight with text format,
everything else defaulted). -/
def argsTextHighlight : Args :=
  ⟨"form.xlsx", Preset.developer, none, "text",
   false, false, false, false, false, false, false, true, none⟩

/-- Parsed arguments for: form.xlsx -e (developer preset with the exclusion
toggle supplied, everything else defaulted). -/
def argsDevExclusion : Args :=
  ⟨"form.xlsx", Preset.developer, none, "html",
   false, true, false, false, false, false, false, false, none⟩

/-- Parsed arguments for: form.xlsx (everything defaulted). -/
def argsDevPlain : Args :=
  ⟨"form.xlsx", Preset.developer, none, "html",
   false, false, false, false, false, false, false, false, none⟩

/-- Arguments with highlight set and a format outside SUPPORTED_FORMATS;
unreachable through argparse, used to exercise the highlight guard. -/
def argsPdfHighlight : Args :=
  ⟨"form.xlsx", Preset.developer, none, "pdf",
   false, false, false, false, false, false, false, true, none⟩

/-- An override map supplying only the exclusion toggle as true. -/
def exclusionOverride : Overrides :=
  ⟨none, some true, none, none, none, none⟩

/-- An override map supplying every toggle with exactly the developer default
values (a no-op override map for the developer preset). -/
def devNoopOverrides : Overrides :=
  ⟨some false, some false, some false, some false, some false, some false⟩

/-- Parsed arguments with an outpath and a language, used to exercise the
error path of cli on a second concrete input. -/
def argsTextOut : Args :=
  ⟨"survey.xlsx", Preset.public, some "English", "text",
   false, false, false, false, false, false, false, false, some "out.txt"⟩

theorem applyOne_ne_self (d : Bool) (o : Option Bool) :
    ¬ applyOne d o = d ↔ overrideDiffers d o := by
  cases o with
  | none => simp [applyOne, overrideDiffers]
  | some b => simp [applyOne, overrideDiffers]

theorem applyOverrides_ne_iff (d : ToggleMap) (o : Overrides) :
    ¬ applyOverrides d o = d ↔ someOverrideDiffers d o := by
  rw [ToggleMap.ext_iff]
  simp only [applyOverrides, someOverrideDiffers, not_and_or, ← applyOne_ne_self]

/-- Claim C1: for every preset, resolving with no overrides yields exactly the
preset default table row with provenance the preset itself; in particular the
public row is input_replacement true, exclusion true, hr_relevant true,
hr_constraint false, no_constraint false, text_replacements true. -/
theorem C1_resolve_empty_overrides :
    (∀ p : Preset, resolve p emptyOverrides none "html" false false none =
      Except.ok ⟨presetDefaults p, Provenance.fromPreset p, none, "html",
        false, false, none⟩) ∧
    resolve Preset.public emptyOverrides none "html" false false none =
      Except.ok ⟨⟨true, true, true, false, false, true⟩,
        Provenance.fromPreset Preset.public, none, "html", false, false, none⟩ := by
  constructor
  · intro p
    cases p <;> rfl
  · rfl

/-- Witness for C1 at the internal preset. -/
theorem C1_witness_internal :
    resolve Preset.internal emptyOverrides none "html" false false none =
      Except.ok ⟨⟨false, false, true, false, false, true⟩,
        Provenance.fromPreset Preset.internal, none, "html", false, false, none⟩ :=
  C1_resolve_empty_overrides.1 Preset.internal

/-- Claim C2: provenance is custom exactly when at least one supplied override
differs from the default row of the active preset; when no supplied override
differs, provenance stays the preset name. -/
theorem C2_provenance_custom_iff :
    ∀ (p : Preset) (o : Overrides),
      ((resolveToggles p o).2 = Provenance.custom ↔
        someOverrideDiffers (presetDefaults p) o) ∧
      (¬ someOverrideDiffers (presetDefaults p) o →
        (resolveToggles p o).2 = Provenance.fromPreset p) := by
  intro p o
  rw [← applyOverrides_ne_iff]
  unfold resolveToggles
  by_cases h : applyOverrides (presetDefaults p) o = presetDefaults p
  · rw [if_pos h]
    simp [h]
  · rw [if_neg h]
    simp [h]

/-- Witness for C2: overriding exclusion to true on the developer preset
(whose default is false) makes provenance custom. -/
theorem C2_witness_developer_exclusion :
    (resolveToggles Preset.developer exclusionOverride).2 = Provenance.custom :=
  (C2_provenance_custom_iff Preset.developer exclusionOverride).1.mpr
    (Or.inr (Or.inl ⟨true, rfl, by decide⟩))

/-- Claim C7: resolve is deterministic (value-equal inputs give value-equal
outputs) and its only failure mode is the highlight versus format
validation. -/
theorem C7_resolve_pure_total :
    ∀ (p : Preset) (o : Overrides) (lang : Option String) (fmt : String)
      (dbg hl : Bool) (out : Option String),
      (∀ (p2 : Preset) (o2 : Overrides) (lang2 : Option String) (fmt2 : String)
        (dbg2 hl2 : Bool) (out2 : Option String),
        p = p2 → o = o2 → lang = lang2 → fmt = fmt2 → dbg = dbg2 → hl = hl2 →
        out = out2 →
        resolve p o lang fmt dbg hl out =
          resolve p2 o2 lang2 fmt2 dbg2 hl2 out2) ∧
      ((∃ e, resolve p o lang fmt dbg hl out = Except.error e) ↔
        hl = true ∧ fmt ∉ visualFormats) := by
  intro p o lang fmt dbg hl out
  constructor
  · intro p2 o2 lang2 fmt2 dbg2 hl2 out2 h1 h2 h3 h4 h5 h6 h7
    subst h1; subst h2; subst h3; subst h4; subst h5; subst h6; subst h7
    rfl
  · unfold resolve
    by_cases h : hl = true ∧ fmt ∉ visualFormats
    · rw [if_pos h]
      simp [h]
      exact ⟨ConfigurationError.highlightUnsupported, trivial⟩
    · rw [if_neg h]
      simp [h]

/-- Witness for C7: requesting highlight with the text format is the failure
mode. -/
theorem C7_witness_text_highlight :
    ∃ e, resolve Preset.public emptyOverrides none "text" false true none =
      Except.error e :=
  ((C7_resolve_pure_total Preset.public emptyOverrides none "text"
    false true none).2).mpr ⟨rfl, by decide⟩

/-- Claim C3, code behaviour at the failing input: with highlight true and the
text format, cli raises no configuration error and invokes run.  The guard at
src/pmix/ppp/interfaces/cli.py line 215 compares the format against
SUPPORTED_FORMATS, and every parseable format is in SUPPORTED_FORMATS because
the format flag uses those same values as its argparse choices, so the guard
can never fire; yet its own error message says highlighting is only for the
html and pdf formats. -/
theorem C3_highlight_text_not_blocked :
    cli runOk argsTextHighlight =
      ⟨CliOutcome.ok, some (runArgsOf argsTextHighlight)⟩ := by
  rfl

/-- Claim C4, code behaviour at the failing input: the exclusion toggle the
user supplied never reaches run; cli passes only the preset name and the
non-toggle arguments, so the result equals the result with no toggle
supplied. -/
theorem C4_toggles_never_forwarded :
    (cli runOk argsDevExclusion).runCall =
      some ⟨"form.xlsx", none, "html", none, false, false, Preset.developer⟩ ∧
    cli runOk argsDevExclusion = cli runOk argsDevPlain := by
  constructor <;> rfl

/-- Counterexample to claim C5 as stated: an exception raised by run that is
not an OdkException is not caught by cli; it propagates instead of being
wrapped and printed to stderr. -/
theorem C5_counterexample_other_exception_escapes :
    (cli runRaisesOther argsDevPlain).outcome =
      CliOutcome.raised (PyExc.other "boom") := by
  rfl

/-- Claim C5 as amended: every OdkException raised by run is caught at the cli
boundary, wrapped with the fixed template naming the input path, written to
stderr, and not re-raised. -/
theorem C5_odk_exceptions_wrapped :
    ∀ (runB : RunArgs → Except PyExc Unit) (a : Args) (msg : String),
      a.format ∈ SUPPORTED_FORMATS →
      runB (runArgsOf a) = Except.error (PyExc.odk msg) →
      cli runB a = ⟨CliOutcome.printedErr (errTemplate a.xlsxfile msg),
        some (runArgsOf a)⟩ := by
  intro runB a msg hfmt hrun
  have hneg : ¬(a.highlight = true ∧ a.format ≠ "" ∧
      a.format ∉ SUPPORTED_FORMATS) := fun hc => hc.2.2 hfmt
  unfold cli
  rw [if_neg hneg, hrun]

/-- Witness for C5 at a concrete OdkException. -/
theorem C5_witness_odk_wrapped :
    cli runRaisesOdk argsDevPlain =
      ⟨CliOutcome.printedErr (errTemplate "form.xlsx" "bad form"),
        some (runArgsOf argsDevPlain)⟩ :=
  C5_odk_exceptions_wrapped runRaisesOdk argsDevPlain "bad form" (by decide) rfl

/-- Claim C6: omitting the preset flag yields developer, and the selectable
presets are exactly public, internal, developer, minimal, so custom can never
be selected directly. -/
theorem C6_preset_default_and_choices :
    parsePreset none = some presetDefaultName ∧
    presetDefaultName = "developer" ∧
    (∀ s : String, parsePreset (some s) = some s ↔ s ∈ presetChoices) ∧
    presetChoices = ["public", "internal", "developer", "minimal"] ∧
    "custom" ∉ presetChoices := by
  refine ⟨rfl, rfl, ?_, rfl, by decide⟩
  intro s
  by_cases h : s ∈ presetChoices
  · simp [parsePreset, h]
  · simp [parsePreset, h]

/-- Witness for C6 at the minimal preset name. -/
theorem C6_witness_minimal_selectable :
    parsePreset (some "minimal") = some "minimal" :=
  (C6_preset_default_and_choices.2.2.1 "minimal").mpr (by decide)

/-- Claim C8: whenever the highlight configuration check fires, cli raises at
once and run is never invoked (the result records no run call, so no file
work happens in that execution). -/
theorem C8_config_error_blocks_run :
    ∀ (runB : RunArgs → Except PyExc Unit) (a : Args),
      a.highlight = true ∧ a.format ≠ "" ∧ a.format ∉ SUPPORTED_FORMATS →
      cli runB a = ⟨CliOutcome.raised (PyExc.odk highlightErrorMsg), none⟩ := by
  intro runB a h
  unfold cli
  rw [if_pos h]

/-- Witness for C8 with a format outside SUPPORTED_FORMATS. -/
theorem C8_witness_pdf_highlight :
    cli runOk argsPdfHighlight =
      ⟨CliOutcome.raised (PyExc.odk highlightErrorMsg), none⟩ :=
  C8_config_error_blocks_run runOk argsPdfHighlight (by decide)

/-- Claim C9: the six toggle flags have no effect on cli: any two parsed
argument records that agree on every non-toggle field produce identical
results, including an identical run call. -/
theorem C9_toggles_have_no_effect :
    ∀ (runB : RunArgs → Except PyExc Unit) (a1 a2 : Args),
      a1.xlsxfile = a2.xlsxfile → a1.preset = a2.preset →
      a1.language = a2.language → a1.format = a2.format →
      a1.debug = a2.debug → a1.highlight = a2.highlight →
      a1.outpath = a2.outpath →
      cli runB a1 = cli runB a2 := by
  intro runB a1 a2 h1 h2 h3 h4 h5 h6 h7
  have hr : runArgsOf a1 = runArgsOf a2 := by
    simp [runArgsOf, h1, h2, h3, h4, h5, h6, h7]
  unfold cli
  rw [h1, h4, h6, hr]

/-- Witness for C9: supplying the exclusion flag changes nothing. -/
theorem C9_witness_exclusion_flag_ignored :
    cli runOk argsDevExclusion = cli runOk argsDevPlain :=
  C9_toggles_have_no_effect runOk argsDevExclusion argsDevPlain
    rfl rfl rfl rfl rfl rfl rfl

/-- Claim C10: when run raises an OdkException, cli prints the formatted
message to stderr and returns normally, without re-raising, so the process
exits with code 0. -/
theorem C10_odk_error_printed_normal_return :
    ∀ (runB : RunArgs → Except PyExc Unit) (a : Args) (msg : String),
      a.format ∈ SUPPORTED_FORMATS →
      runB (runArgsOf a) = Except.error (PyExc.odk msg) →
      (cli runB a).outcome = CliOutcome.printedErr (errTemplate a.xlsxfile msg)
      ∧ ∀ e, (cli runB a).outcome ≠ CliOutcome.raised e := by
  intro runB a msg hfmt hrun
  have hneg : ¬(a.highlight = true ∧ a.format ≠ "" ∧
      a.format ∉ SUPPORTED_FORMATS) := fun hc => hc.2.2 hfmt
  constructor
  · unfold cli
    rw [if_neg hneg, hrun]
  · intro e
    unfold cli
    rw [if_neg hneg, hrun]
    simp

/-- Witness for C10 at a second concrete input with an outpath. -/
theorem C10_witness_text_out :
    (cli runRaisesOdk argsTextOut).outcome =
      CliOutcome.printedErr (errTemplate "survey.xlsx" "bad form") :=
  (C10_odk_error_printed_normal_return runRaisesOdk argsTextOut "bad form"
    (by decide) rfl).1
